import Mathlib

/-
Verification of the pairing-code lifecycle and session-registry layer of the
ELISA-MINI-BOT repository.  The definitions below are a shallow embedding of
the bot service (src/unnamed/part_001), the pairing routes (src/routes/pair.js)
and the relevant parts of the session manager, translated statement by
statement from the JavaScript source.  In-memory JavaScript Maps are modelled
as association lists with JavaScript Map semantics, timers and external
library callbacks are modelled as explicit events folded over the service
state, and the file-system footprint of the credential bundles is modelled as
the list of directories that exist.
-/

set_option maxRecDepth 8000

namespace ElisaMiniBot

/-- Lookup in the association-list model of a JavaScript Map with string keys:
returns the binding of the first matching key, mirroring Map.prototype.get. -/
def mapGet {α : Type} : List (String × α) → String → Option α
  | [], _ => none
  | (k, v) :: t, key => if k = key then some v else mapGet t key

/-- Update in the association-list model of a JavaScript Map: replaces the
value of an existing key in place and appends a fresh binding otherwise,
mirroring Map.prototype.set. -/
def mapSet {α : Type} : List (String × α) → String → α → List (String × α)
  | [], key, v => [(key, v)]
  | (k, w) :: t, key, v =>
      if k = key then (key, v) :: t else (k, w) :: mapSet t key v

/-- Removal in the association-list model of a JavaScript Map, mirroring
Map.prototype.delete. -/
def mapDelete {α : Type} (m : List (String × α)) (key : String) :
    List (String × α) :=
  m.filter (fun p => p.1 != key)

/-- Membership test, mirroring Map.prototype.has. -/
def mapHas {α : Type} (m : List (String × α)) (key : String) : Bool :=
  (mapGet m key).isSome

theorem mapGet_set_self {α : Type} (m : List (String × α)) (k : String) (v : α) :
    mapGet (mapSet m k v) k = some v := by
  induction m with
  | nil => simp [mapSet, mapGet]
  | cons h t ih =>
      obtain ⟨k0, v0⟩ := h
      by_cases hk : k0 = k
      · simp [mapSet, hk, mapGet]
      · simp [mapSet, hk, mapGet, ih]

theorem mapGet_set_ne {α : Type} (m : List (String × α)) (k key : String) (v : α)
    (h : k ≠ key) : mapGet (mapSet m k v) key = mapGet m key := by
  induction m with
  | nil => simp [mapSet, mapGet, h]
  | cons hd t ih =>
      obtain ⟨k0, v0⟩ := hd
      by_cases hk : k0 = k
      · subst hk
        simp [mapSet, mapGet, h]
      · simp [mapSet, hk, mapGet, ih]

theorem mapGet_delete_self {α : Type} (m : List (String × α)) (k : String) :
    mapGet (mapDelete m k) k = none := by
  induction m with
  | nil => simp [mapDelete, mapGet]
  | cons hd t ih =>
      obtain ⟨k0, v0⟩ := hd
      rw [mapDelete, List.filter_cons]
      by_cases hk : k0 = k
      · have hb : ((k0, v0).1 != k) = false := by simp [hk]
        rw [hb]
        simpa [mapDelete] using ih
      · have hb : ((k0, v0).1 != k) = true := by simp [hk]
        rw [hb, if_pos rfl]
        rw [mapGet, if_neg hk]
        simpa [mapDelete] using ih

theorem mapGet_delete_ne {α : Type} (m : List (String × α)) (k key : String)
    (h : k ≠ key) : mapGet (mapDelete m k) key = mapGet m key := by
  induction m with
  | nil => simp [mapDelete, mapGet]
  | cons hd t ih =>
      obtain ⟨k0, v0⟩ := hd
      rw [mapDelete, List.filter_cons]
      by_cases hk : k0 = k
      · have hb : ((k0, v0).1 != k) = false := by simp [hk]
        rw [hb]
        have hky : k0 ≠ key := by
          rw [hk]
          exact h
        simp only [mapGet, if_neg hky]
        simpa [mapDelete] using ih
      · have hb : ((k0, v0).1 != k) = true := by simp [hk]
        rw [hb, if_pos rfl]
        by_cases hky : k0 = key
        · rw [mapGet, if_pos hky, mapGet, if_pos hky]
        · rw [mapGet, if_neg hky, mapGet, if_neg hky]
          simpa [mapDelete] using ih

theorem mapGet_delete_none {α : Type} (m : List (String × α)) (k key : String)
    (h : mapGet m key = none) : mapGet (mapDelete m k) key = none := by
  by_cases hk : k = key
  · subst hk
    exact mapGet_delete_self m k
  · rw [mapGet_delete_ne m k key hk]
    exact h

theorem mem_keys_mapSet {α : Type} (m : List (String × α)) (k x : String) (v : α)
    (hx : x ∈ (mapSet m k v).map Prod.fst) : x ∈ m.map Prod.fst ∨ x = k := by
  induction m with
  | nil => simpa [mapSet] using hx
  | cons hd t ih =>
      obtain ⟨k0, v0⟩ := hd
      by_cases hk : k0 = k
      · subst hk
        rcases (by simpa [mapSet] using hx : x = k0 ∨ x ∈ t.map Prod.fst) with h1 | h1
        · exact Or.inr h1
        · exact Or.inl (by simp [h1])
      · rw [mapSet, if_neg hk] at hx
        rcases (by simpa using hx : x = k0 ∨ x ∈ (mapSet t k v).map Prod.fst) with h1 | h1
        · exact Or.inl (by simp [h1])
        · rcases ih h1 with h2 | h2
          · exact Or.inl (by simp [h2])
          · exact Or.inr h2

theorem keys_nodup_mapSet {α : Type} (m : List (String × α)) (k : String) (v : α)
    (h : (m.map Prod.fst).Nodup) : ((mapSet m k v).map Prod.fst).Nodup := by
  induction m with
  | nil => simp [mapSet]
  | cons hd t ih =>
      obtain ⟨k0, v0⟩ := hd
      simp only [List.map_cons, List.nodup_cons] at h
      by_cases hk : k0 = k
      · subst hk
        simpa [mapSet, List.nodup_cons] using h
      · rw [mapSet, if_neg hk]
        simp only [List.map_cons, List.nodup_cons]
        refine ⟨?_, ih h.2⟩
        intro hc
        rcases mem_keys_mapSet t k k0 v hc with h2 | h2
        · exact h.1 h2
        · exact hk h2

theorem keys_nodup_mapDelete {α : Type} (m : List (String × α)) (k : String)
    (h : (m.map Prod.fst).Nodup) : ((mapDelete m k).map Prod.fst).Nodup := by
  have hsub : (mapDelete m k).Sublist m := List.filter_sublist m
  exact (hsub.map Prod.fst).nodup h

/-- Decimal digits of a natural number, least significant first, written with
explicit fuel so the recursion is structural.  This models the digit sequence
produced by Number.prototype.toString on a non-negative integer. -/
def decDigitsAux : Nat → Nat → List Nat
  | 0, _ => []
  | fuel + 1, n => if n < 10 then [n] else n % 10 :: decDigitsAux fuel (n / 10)

/-- Decimal digits of a natural number, least significant first.  The fuel
value n + 1 always suffices because the argument shrinks by a factor of ten at
every step. -/
def decDigits (n : Nat) : List Nat :=
  decDigitsAux (n + 1) n

/-- The decimal string of a natural number, the model of the .toString() call
in the pairing-code generator. -/
def jsNatToString (n : Nat) : String :=
  String.mk ((decDigits n).reverse.map (fun d => Char.ofNat (48 + d)))

theorem decDigitsAux_length (k : Nat) :
    ∀ fuel n, 10 ^ k ≤ n → n < 10 ^ (k + 1) → n < fuel →
      (decDigitsAux fuel n).length = k + 1 := by
  induction k with
  | zero =>
      intro fuel n h1 h2 hf
      match fuel, hf with
      | f + 1, _ =>
          have hn : n < 10 := by simpa using h2
          simp [decDigitsAux, hn]
  | succ k ih =>
      intro fuel n h1 h2 hf
      match fuel, hf with
      | f + 1, hf =>
          have hten : (10 : Nat) ≤ n := by
            calc (10 : Nat) = 10 ^ 1 := by norm_num
            _ ≤ 10 ^ (k + 1) := Nat.pow_le_pow_right (by norm_num) (by omega)
            _ ≤ n := h1
          have hn : ¬ n < 10 := by omega
          have hdiv1 : 10 ^ k ≤ n / 10 := by
            rw [Nat.le_div_iff_mul_le (by norm_num)]
            calc 10 ^ k * 10 = 10 ^ (k + 1) := by ring
            _ ≤ n := h1
          have hdiv2 : n / 10 < 10 ^ (k + 1) := by
            rw [Nat.div_lt_iff_lt_mul (by norm_num)]
            calc n < 10 ^ (k + 1 + 1) := h2
            _ = 10 ^ (k + 1) * 10 := by ring
          have hfuel : n / 10 < f := by
            have hlt : n / 10 < n := Nat.div_lt_self (by omega) (by norm_num)
            omega
          simp only [decDigitsAux, hn, if_false, List.length_cons]
          rw [ih f (n / 10) hdiv1 hdiv2 hfuel]

theorem decDigitsAux_mem_lt_ten :
    ∀ fuel n d, d ∈ decDigitsAux fuel n → d < 10 := by
  intro fuel
  induction fuel with
  | zero => intro n d hd; simp [decDigitsAux] at hd
  | succ f ih =>
      intro n d hd
      by_cases hn : n < 10
      · rw [decDigitsAux, if_pos hn] at hd
        simp at hd
        omega
      · rw [decDigitsAux, if_neg hn] at hd
        rcases (by simpa using hd : d = n % 10 ∨ d ∈ decDigitsAux f (n / 10)) with h1 | h1
        · subst h1
          exact Nat.mod_lt n (by norm_num)
        · exact ih (n / 10) d h1

theorem digitChar_isDigit (d : Nat) (h : d < 10) :
    (Char.ofNat (48 + d)).isDigit = true := by
  interval_cases d <;> decide

theorem jsNatToString_length (n k : Nat) (h1 : 10 ^ k ≤ n) (h2 : n < 10 ^ (k + 1)) :
    (jsNatToString n).length = k + 1 := by
  have hlen := decDigitsAux_length k (n + 1) n h1 h2 (Nat.lt_succ_self n)
  simp [jsNatToString, String.length, decDigits, hlen]

theorem jsNatToString_digits (n : Nat) :
    (jsNatToString n).data.all Char.isDigit = true := by
  rw [List.all_eq_true]
  intro c hc
  simp only [jsNatToString] at hc
  rcases (by simpa using hc :
      ∃ d, d ∈ (decDigits n).reverse ∧ Char.ofNat (48 + d) = c) with ⟨d, hd, hcd⟩
  have hd10 : d < 10 := decDigitsAux_mem_lt_ten (n + 1) n d (by simpa [decDigits] using hd)
  rw [← hcd]
  exact digitChar_isDigit d hd10

/-- Models generatePairingCode of src/unnamed/part_001:
Math.floor(10000000 + Math.random() * 90000000).toString().  The random draw
Math.floor(Math.random() * 90000000), a value in [0, 90000000), is modelled by
rand % 90000000 for an arbitrary natural seed rand. -/
def generatePairingCode (rand : Nat) : String :=
  jsNatToString (10000000 + rand % 90000000)

theorem generatePairingCode_length (rand : Nat) :
    (generatePairingCode rand).length = 8 := by
  have hr : rand % 90000000 < 90000000 := Nat.mod_lt rand (by norm_num)
  have h1 : 10 ^ 7 ≤ 10000000 + rand % 90000000 := by norm_num
  have h2 : 10000000 + rand % 90000000 < 10 ^ 8 := by
    norm_num
    omega
  simpa using jsNatToString_length (10000000 + rand % 90000000) 7 h1 h2

theorem generatePairingCode_digits (rand : Nat) :
    (generatePairingCode rand).data.all Char.isDigit = true :=
  jsNatToString_digits (10000000 + rand % 90000000)

theorem generatePairingCode_range (rand : Nat) :
    ∃ n : Nat, 10000000 ≤ n ∧ n ≤ 99999999 ∧ generatePairingCode rand = jsNatToString n := by
  refine ⟨10000000 + rand % 90000000, by omega, ?_, rfl⟩
  have hr : rand % 90000000 < 90000000 := Nat.mod_lt rand (by norm_num)
  omega

/-- A live protocol connection handle, as stored in the activeSockets Map of
src/unnamed/part_001.  Only the fields the claims mention are modelled: an
opaque identity and the user descriptor that the external library attaches
once the handshake completes (absent while the connection is still pending). -/
structure Socket where
  sid : Nat
  user : Option String
  deriving DecidableEq

/-- One entry of the pairingCodes Map of src/unnamed/part_001:
pairingCodes.set(botId, { code, socket, phoneNumber, createdAt }).  The
socket field stores the identity of the owning connection handle. -/
structure PairingData where
  code : String
  socket : Nat
  phoneNumber : String
  createdAt : Nat
  deriving DecidableEq

/-- The mutable module state of src/unnamed/part_001: the activeSockets Map,
the pairingCodes Map, and the set of credential-bundle directories that exist
on disk (the session directories written by useMultiFileAuthState). -/
structure ServiceState where
  activeSockets : List (String × Socket)
  pairingCodes : List (String × PairingData)
  sessionDirs : List String
  deriving DecidableEq

/-- The state at module load: both Maps empty and the session base directory
created by the fs.mkdirSync call at the top of src/unnamed/part_001. -/
def initialState : ServiceState :=
  { activeSockets := [], pairingCodes := [], sessionDirs := ["./sessions"] }

/-- path.join(SESSION_BASE_PATH, session_ + botId) from src/unnamed/part_001. -/
def sessionPath (botId : String) : String :=
  "./sessions/session_" ++ botId

/-- Idempotent directory creation, the effect of useMultiFileAuthState on the
per-bot session directory. -/
def ensureDir (dirs : List String) (d : String) : List String :=
  if d ∈ dirs then dirs else d :: dirs

/-- Models createBotSessionWithPairing of src/unnamed/part_001 (lines 34-111):
opens the per-bot credential directory, builds a socket, stores it in
activeSockets, and, when the restored auth state is not yet registered,
generates a pairing code, stores a Pairing Entry in pairingCodes and returns
the code (the source then schedules the expiry callback at now + 600000
milliseconds, modelled by an explicit expiry event in the trace layer below);
when the auth state is already registered it returns null.  The registered
flag, the socket identity and the random seed stand for the values produced by
the external library and Math.random. -/
def createBotSessionWithPairing (st : ServiceState) (botId phoneNumber : String)
    (registered : Bool) (sockId rand now : Nat) : Option String × ServiceState :=
  let st1 : ServiceState :=
    { st with
        sessionDirs := ensureDir st.sessionDirs (sessionPath botId)
        activeSockets := mapSet st.activeSockets botId { sid := sockId, user := none } }
  if registered then
    (none, st1)
  else
    let code := generatePairingCode rand
    (some code,
      { st1 with
          pairingCodes := mapSet st1.pairingCodes botId
            { code := code, socket := sockId, phoneNumber := phoneNumber, createdAt := now } })

/-- Models the expiry callback scheduled by the setTimeout at lines 96-101 of
src/unnamed/part_001: if a Pairing Entry for the bot id is present (whichever
entry that happens to be), delete it; otherwise do nothing. -/
def expiryCallback (st : ServiceState) (botId : String) : ServiceState :=
  if mapHas st.pairingCodes botId then
    { st with pairingCodes := mapDelete st.pairingCodes botId }
  else
    st

/-- Models the connection open branch of the connection.update handler
(lines 58-68 of src/unnamed/part_001): the pairing code for the bot is
cleared; the status broadcast has no effect on the modelled state. -/
def handleConnectionOpen (st : ServiceState) (botId : String) : ServiceState :=
  { st with pairingCodes := mapDelete st.pairingCodes botId }

/-- Models the connection close branch of the connection.update handler
(lines 69-79 of src/unnamed/part_001).  The Boolean result records whether a
reconnect was scheduled: with a status code other than 401 the handler only
schedules a reconnect (state untouched); with 401 (logged out) it deletes the
Pairing Entry and the Registry entry and schedules nothing.  Note that the 401
branch does not touch sessionDirs: the per-bot credential bundle stays on
disk. -/
def handleConnectionClose (st : ServiceState) (botId : String)
    (statusCode : Option Nat) : ServiceState × Bool :=
  let shouldReconnect : Bool := statusCode != some 401
  if shouldReconnect then
    (st, true)
  else
    ({ st with
        pairingCodes := mapDelete st.pairingCodes botId
        activeSockets := mapDelete st.activeSockets botId }, false)

/-- The { success, message } object returned by verifyPairingCode. -/
structure VerifyResult where
  success : Bool
  message : String
  deriving DecidableEq

/-- Models verifyPairingCode of src/unnamed/part_001 (lines 114-138).  The
requestError argument stands for the outcome of the external
socket.requestPairingCode call: none for success, some e for a thrown error
with message e.  The returned state is the (unchanged) pairingCodes and
activeSockets state: no branch of the source mutates either Map. -/
def verifyPairingCode (st : ServiceState) (botId code : String)
    (requestError : Option String) : VerifyResult × ServiceState :=
  match mapGet st.pairingCodes botId with
  | none => ({ success := false, message := "Pairing code expired or invalid" }, st)
  | some pairingData =>
      if pairingData.code ≠ code then
        ({ success := false, message := "Invalid pairing code" }, st)
      else
        match requestError with
        | none => ({ success := true, message := "Pairing successful" }, st)
        | some e => ({ success := false, message := "Pairing failed: " ++ e }, st)

/-- The object returned by the getBotStatus export of src/unnamed/part_001. -/
structure BotStatus where
  status : String
  online : Bool
  user : Option String
  lastSeen : Nat
  deriving DecidableEq

/-- Models the getBotStatus export (lines 165-173 of src/unnamed/part_001):
status is connected exactly when a socket is registered for the bot id,
online is the same presence test, user is the optional user descriptor of the
stored socket, and lastSeen is the current clock value (new Date()). -/
def getBotStatus (st : ServiceState) (botId : String) (now : Nat) : BotStatus :=
  let socket := mapGet st.activeSockets botId
  { status := if socket.isSome then "connected" else "disconnected"
    online := socket.isSome
    user := socket.bind Socket.user
    lastSeen := now }

/-- JavaScript truthiness of an optional string request field: absent fields
and empty strings are falsy, which is exactly what the guards
if (!botId || !phoneNumber) and if (!botId || !code) test. -/
def jsTruthy : Option String → Bool
  | none => false
  | some s => s != ""

/-- Models the phone-number normalization of src/routes/pair.js line 25:
phoneNumber.replace(/[^0-9]/g, transform) keeps exactly the decimal digits. -/
def normalizePhone (s : String) : String :=
  String.mk (s.data.filter Char.isDigit)

/-- Models the 8-digit code format test of src/routes/pair.js line 66, the
regular expression match for exactly eight decimal digits. -/
def isEightDigitCode (s : String) : Bool :=
  s.length == 8 && s.data.all Char.isDigit

/-- The data object of a successful response from POST /pair/generate. -/
structure GenerateData where
  botId : String
  pairingCode : Option String
  instructions : String
  expiresIn : String
  deriving DecidableEq

/-- An HTTP response of the generate route: status code, success flag, the
error message when there is one, and the data object when there is one. -/
structure GenerateResponse where
  status : Nat
  success : Bool
  message : Option String
  data : Option GenerateData
  deriving DecidableEq

/-- Models the POST /pair/generate handler of src/routes/pair.js
(lines 13-51): missing or empty fields give 400, a phone number with fewer
than ten digits after normalization gives 400, a throwing session creation is
caught and gives 500, and otherwise the handler responds 200 with the data
object built from the session creation result.  The registered flag, socket
identity, random seed, clock value and throw flag stand for the values and
outcomes produced by the external library. -/
def generateRoute (st : ServiceState) (botId phoneNumber : Option String)
    (registered : Bool) (sockId rand now : Nat) (creationThrows : Bool) :
    GenerateResponse × ServiceState :=
  if !(jsTruthy botId && jsTruthy phoneNumber) then
    ({ status := 400, success := false,
       message := some "Bot ID and phone number are required", data := none }, st)
  else
    let b := botId.getD ""
    let p := phoneNumber.getD ""
    let cleanNumber := normalizePhone p
    if cleanNumber.length < 10 then
      ({ status := 400, success := false,
         message := some "Invalid phone number format", data := none }, st)
    else if creationThrows then
      ({ status := 500, success := false,
         message := some "Failed to generate pairing code", data := none }, st)
    else
      let r := createBotSessionWithPairing st b ("+" ++ cleanNumber) registered sockId rand now
      ({ status := 200, success := true, message := none,
         data := some
           { botId := b
             pairingCode := r.1
             instructions := "Use this 8-digit code in WhatsApp > Linked Devices > Link a Device"
             expiresIn := "10 minutes" } }, r.2)

/-- An HTTP response of the verify route. -/
structure VerifyResponse where
  status : Nat
  success : Bool
  message : String
  deriving DecidableEq

/-- Models the POST /pair/verify handler of src/routes/pair.js (lines 54-93):
missing or empty fields give 400, a code that is not exactly eight digits
gives 400, and otherwise the verifyPairingCode result is mapped to 200 on
success and to 400 with the service message on failure. -/
def verifyRoute (st : ServiceState) (botId code : Option String)
    (requestError : Option String) : VerifyResponse :=
  if !(jsTruthy botId && jsTruthy code) then
    { status := 400, success := false, message := "Bot ID and code are required" }
  else
    let b := botId.getD ""
    let c := code.getD ""
    if !isEightDigitCode c then
      { status := 400, success := false, message := "Invalid code format. Must be 8 digits." }
    else
      let r := (verifyPairingCode st b c requestError).1
      if r.success then
        { status := 200, success := true, message := "✅ Bot connected successfully!" }
      else
        { status := 400, success := false, message := r.message }

/-- The names that line 7 of src/routes/pair.js destructures from the bot
service module.  getBotStatus is not among them, although the status route
handler calls it. -/
def pairRouterImports : List String :=
  ["createBotSessionWithPairing", "verifyPairingCode", "getConnectedBots"]

/-- An HTTP response of the status route. -/
structure StatusResponse where
  status : Nat
  success : Bool
  message : Option String
  data : Option BotStatus
  deriving DecidableEq

/-- Models the GET /pair/status/:botId handler of src/routes/pair.js
(lines 117-133).  The handler body calls getBotStatus, but that name is not
among the bindings imported on line 7, so in the source the call raises a
ReferenceError that the surrounding catch converts into a 500 response; the
name-resolution of the call is modelled by the membership test on the import
list.  Had the name been imported, the handler would respond 200 with the
getBotStatus data. -/
def statusRoute (st : ServiceState) (botId : String) (now : Nat) : StatusResponse :=
  if pairRouterImports.contains "getBotStatus" then
    { status := 200, success := true, message := none,
      data := some (getBotStatus st botId now) }
  else
    { status := 500, success := false,
      message := some "Failed to get bot status", data := none }

/-- The discrete events dispatched by the event loop against the bot-service
state: session creations, expiry-timer callbacks, connection.update events
from the external library, and verification calls.  Each event carries the
millisecond timestamp at which the loop runs it. -/
inductive Ev where
  | create (botId phoneNumber : String) (registered : Bool) (sockId rand time : Nat)
  | expiry (botId : String) (time : Nat)
  | connOpen (botId : String) (time : Nat)
  | connClose (botId : String) (statusCode : Option Nat) (time : Nat)
  | verify (botId code : String) (requestError : Option String) (time : Nat)
  deriving DecidableEq

/-- The timestamp of an event. -/
def Ev.time : Ev → Nat
  | .create _ _ _ _ _ t => t
  | .expiry _ t => t
  | .connOpen _ t => t
  | .connClose _ _ t => t
  | .verify _ _ _ t => t

/-- Whether an event is a session creation for the given bot id. -/
def Ev.createsFor : Ev → String → Bool
  | .create b _ _ _ _ _, b2 => b == b2
  | _, _ => false

/-- One step of the event loop: each event runs the corresponding handler of
src/unnamed/part_001 to completion. -/
def step (st : ServiceState) : Ev → ServiceState
  | .create b p r s rd t => (createBotSessionWithPairing st b p r s rd t).2
  | .expiry b _ => expiryCallback st b
  | .connOpen b _ => handleConnectionOpen st b
  | .connClose b sc _ => (handleConnectionClose st b sc).1
  | .verify b c e _ => (verifyPairingCode st b c e).2

/-- The state after the event loop has dispatched a list of events, starting
from the module-load state. -/
def runTrace (evs : List Ev) : ServiceState :=
  evs.foldl step initialState

/-- A trace is chronological when its timestamps are nondecreasing. -/
def chronological (evs : List Ev) : Prop :=
  evs.Pairwise (fun e1 e2 => e1.time ≤ e2.time)

/-- The states of the bot service reachable from module load by dispatching
events. -/
inductive Reachable : ServiceState → Prop where
  | init : Reachable initialState
  | next (st : ServiceState) (e : Ev) : Reachable st → Reachable (step st e)

theorem verifyPairingCode_state (st : ServiceState) (b c : String)
    (err : Option String) : (verifyPairingCode st b c err).2 = st := by
  cases hg : mapGet st.pairingCodes b with
  | none => simp [verifyPairingCode, hg]
  | some pd =>
      by_cases hc : pd.code ≠ c
      · simp [verifyPairingCode, hg, hc]
      · cases err with
        | none => simp [verifyPairingCode, hg, hc]
        | some e => simp [verifyPairingCode, hg, hc]

theorem createBotSessionWithPairing_pairingCodes_true (st : ServiceState)
    (b p : String) (s rd t : Nat) :
    (createBotSessionWithPairing st b p true s rd t).2.pairingCodes =
      st.pairingCodes := by
  simp [createBotSessionWithPairing]

theorem createBotSessionWithPairing_pairingCodes_false (st : ServiceState)
    (b p : String) (s rd t : Nat) :
    (createBotSessionWithPairing st b p false s rd t).2.pairingCodes =
      mapSet st.pairingCodes b
        { code := generatePairingCode rd, socket := s, phoneNumber := p, createdAt := t } := by
  simp [createBotSessionWithPairing]

theorem createBotSessionWithPairing_activeSockets (st : ServiceState)
    (b p : String) (r : Bool) (s rd t : Nat) :
    (createBotSessionWithPairing st b p r s rd t).2.activeSockets =
      mapSet st.activeSockets b { sid := s, user := none } := by
  cases r <;> simp [createBotSessionWithPairing]

theorem createBotSessionWithPairing_sessionDirs (st : ServiceState)
    (b p : String) (r : Bool) (s rd t : Nat) :
    (createBotSessionWithPairing st b p r s rd t).2.sessionDirs =
      ensureDir st.sessionDirs (sessionPath b) := by
  cases r <;> simp [createBotSessionWithPairing]

theorem expiryCallback_clears (st : ServiceState) (b : String) :
    mapGet (expiryCallback st b).pairingCodes b = none := by
  rw [expiryCallback]
  by_cases h : mapHas st.pairingCodes b = true
  · rw [if_pos h]
    exact mapGet_delete_self st.pairingCodes b
  · rw [if_neg h]
    rw [mapHas] at h
    cases hg : mapGet st.pairingCodes b with
    | none => rfl
    | some v => exact absurd (by rw [hg]; rfl) h

theorem noEntry_step (st : ServiceState) (e : Ev) (b : String)
    (h : mapGet st.pairingCodes b = none) (hc : e.createsFor b = false) :
    mapGet (step st e).pairingCodes b = none := by
  cases e with
  | create b2 p r s rd t =>
      have hb2 : b2 ≠ b := by
        simpa [Ev.createsFor] using hc
      cases r with
      | true =>
          rw [step, createBotSessionWithPairing_pairingCodes_true]
          exact h
      | false =>
          rw [step, createBotSessionWithPairing_pairingCodes_false]
          rw [mapGet_set_ne st.pairingCodes b2 b _ hb2]
          exact h
  | expiry b2 t =>
      rw [step, expiryCallback]
      by_cases hhas : mapHas st.pairingCodes b2 = true
      · rw [if_pos hhas]
        exact mapGet_delete_none st.pairingCodes b2 b h
      · rw [if_neg hhas]
        exact h
  | connOpen b2 t =>
      rw [step, handleConnectionOpen]
      exact mapGet_delete_none st.pairingCodes b2 b h
  | connClose b2 sc t =>
      rw [step, handleConnectionClose]
      by_cases hsc : (sc != some 401) = true
      · rw [if_pos hsc]
        exact h
      · rw [if_neg hsc]
        exact mapGet_delete_none st.pairingCodes b2 b h
  | verify b2 c e2 t =>
      rw [step, verifyPairingCode_state]
      exact h

theorem noEntry_foldl (suf : List Ev) (b : String) :
    ∀ st : ServiceState, mapGet st.pairingCodes b = none →
      (∀ e ∈ suf, e.createsFor b = false) →
      mapGet (suf.foldl step st).pairingCodes b = none := by
  induction suf with
  | nil => intro st h _; simpa using h
  | cons e t ih =>
      intro st h hall
      rw [List.foldl_cons]
      exact ih (step st e)
        (noEntry_step st e b h (hall e (by simp)))
        (fun e2 he2 => hall e2 (by simp [he2]))

theorem reachable_keys_nodup (st : ServiceState) (h : Reachable st) :
    (st.pairingCodes.map Prod.fst).Nodup ∧ (st.activeSockets.map Prod.fst).Nodup := by
  induction h with
  | init => simp [initialState]
  | next st2 e _ ih =>
      cases e with
      | create b p r s rd t =>
          constructor
          · cases r with
            | true =>
                rw [step, createBotSessionWithPairing_pairingCodes_true]
                exact ih.1
            | false =>
                rw [step, createBotSessionWithPairing_pairingCodes_false]
                exact keys_nodup_mapSet st2.pairingCodes b _ ih.1
          · rw [step, createBotSessionWithPairing_activeSockets]
            exact keys_nodup_mapSet st2.activeSockets b _ ih.2
      | expiry b t =>
          rw [step, expiryCallback]
          by_cases hhas : mapHas st2.pairingCodes b = true
          · rw [if_pos hhas]
            exact ⟨keys_nodup_mapDelete st2.pairingCodes b ih.1, ih.2⟩
          · rw [if_neg hhas]
            exact ih
      | connOpen b t =>
          rw [step, handleConnectionOpen]
          exact ⟨keys_nodup_mapDelete st2.pairingCodes b ih.1, ih.2⟩
      | connClose b sc t =>
          rw [step, handleConnectionClose]
          by_cases hsc : (sc != some 401) = true
          · rw [if_pos hsc]
            exact ih
          · rw [if_neg hsc]
            exact ⟨keys_nodup_mapDelete st2.pairingCodes b ih.1,
                   keys_nodup_mapDelete st2.activeSockets b ih.2⟩
      | verify b c e2 t =>
          rw [step, verifyPairingCode_state]
          exact ih

/-- A bot-service state holding one pending socket and one live Pairing Entry
for bot id b1, together with the credential bundle directory that
useMultiFileAuthState created for it. -/
def sampleEntry : PairingData :=
  { code := "12345678", socket := 1, phoneNumber := "+15551234567", createdAt := 0 }

def sampleState : ServiceState :=
  { activeSockets := [("b1", { sid := 1, user := none })]
    pairingCodes := [("b1", sampleEntry)]
    sessionDirs := ["./sessions/session_b1", "./sessions"] }

/-- Claim C3 (refuted by the source, documenting the code bug): the claim says
GET /pair/status/:botId answers 200 with success true and a status data
object, but src/routes/pair.js line 7 does not import getBotStatus, so the
handler call on line 120 raises a ReferenceError and the catch answers 500
with success false and the generic failure message, for every bot id and
every service state. -/
theorem status_route_always_500 :
    pairRouterImports.contains "getBotStatus" = false ∧
    ∀ (st : ServiceState) (b : String) (now : Nat),
      statusRoute st b now =
        { status := 500, success := false,
          message := some "Failed to get bot status", data := none } := by
  have hc : pairRouterImports.contains "getBotStatus" = false := by decide
  refine ⟨hc, ?_⟩
  intro st b now
  rw [statusRoute, hc]
  simp

/-- Claim C7: verification with a code that differs from the stored code of a
live Pairing Entry returns the Mismatch failure (message Invalid pairing code)
and returns the service state completely unchanged, so neither the Pairing
Entry nor the Connection Registry is mutated. -/
theorem verify_mismatch_frame (st : ServiceState) (b code : String)
    (err : Option String) (e : PairingData)
    (hg : mapGet st.pairingCodes b = some e) (hne : e.code ≠ code) :
    verifyPairingCode st b code err =
      ({ success := false, message := "Invalid pairing code" }, st) := by
  simp [verifyPairingCode, hg, hne]

/-- Witness for verify_mismatch_frame at a concrete state: bot b1 holds the
code 12345678 and verification with 00000000 fails without mutation. -/
theorem verify_mismatch_frame_wit :
    verifyPairingCode sampleState "b1" "00000000" none =
      ({ success := false, message := "Invalid pairing code" }, sampleState) :=
  verify_mismatch_frame sampleState "b1" "00000000" none sampleEntry
    (by decide) (by decide)

/-- Claim C9: phone-number normalization (keeping exactly the decimal digits)
is idempotent, the example from the specification normalizes to 15551234567
with 11 digits, and a request whose phone number normalizes to fewer than ten
digits is rejected by the generate route with HTTP 400 and the message
Invalid phone number format, without touching the state. -/
theorem normalize_idempotent_and_reject :
    (∀ s : String, normalizePhone (normalizePhone s) = normalizePhone s) ∧
    normalizePhone "+1 (555) 123-4567" = "15551234567" ∧
    (normalizePhone "+1 (555) 123-4567").length = 11 ∧
    ∀ (st : ServiceState) (b p : String) (registered : Bool)
      (sockId rand now : Nat) (thr : Bool),
      b ≠ "" → p ≠ "" → (normalizePhone p).length < 10 →
        generateRoute st (some b) (some p) registered sockId rand now thr =
          ({ status := 400, success := false,
             message := some "Invalid phone number format", data := none }, st) := by
  refine ⟨?_, by decide, by decide, ?_⟩
  · intro s
    simp only [normalizePhone]
    rw [List.filter_filter]
    simp
  · intro st b p r sockId rand now thr hb hp hlen
    have ht : (jsTruthy (some b) && jsTruthy (some p)) = true := by
      simp [jsTruthy, hb, hp]
    simp [generateRoute, ht, hlen]

/-- Witness for normalize_idempotent_and_reject: idempotence at a concrete
string, and the generate route rejecting the ten-minus-digit phone number
+1 555 0100 (eight digits after normalization). -/
theorem normalize_idempotent_and_reject_wit :
    normalizePhone (normalizePhone "+1a2b3") = normalizePhone "+1a2b3" ∧
    generateRoute initialState (some "b1") (some "+1 555 0100") false 1 0 0 false =
      ({ status := 400, success := false,
         message := some "Invalid phone number format", data := none }, initialState) :=
  ⟨normalize_idempotent_and_reject.1 "+1a2b3",
   normalize_idempotent_and_reject.2.2.2 initialState "b1" "+1 555 0100" false 1 0 0 false
     (by decide) (by decide) (by decide)⟩

/-- Claim C10: the single-bot status reports connected and online exactly when
a Connection Handle is stored in the Registry for the bot id, the user field
is the optional user descriptor of that handle, and in particular a pending
handle whose handshake has not completed (user absent) is still reported as
connected with user absent. -/
theorem status_reflects_registry (st : ServiceState) (b : String) (now : Nat) :
    ((getBotStatus st b now).status = "connected" ↔
      (mapGet st.activeSockets b).isSome = true) ∧
    (getBotStatus st b now).online = (mapGet st.activeSockets b).isSome ∧
    (getBotStatus st b now).user = (mapGet st.activeSockets b).bind Socket.user ∧
    ∀ s : Socket, mapGet st.activeSockets b = some s → s.user = none →
      (getBotStatus st b now).status = "connected" ∧
      (getBotStatus st b now).user = none := by
  cases hg : mapGet st.activeSockets b with
  | none =>
      have hne : ("disconnected" : String) ≠ "connected" := by decide
      refine ⟨?_, ?_, ?_, ?_⟩
      · simp [getBotStatus, hg, hne]
      · simp [getBotStatus, hg]
      · simp [getBotStatus, hg]
      · intro s hs
        exact absurd hs (by simp)
  | some s0 =>
      refine ⟨?_, ?_, ?_, ?_⟩
      · simp [getBotStatus, hg]
      · simp [getBotStatus, hg]
      · simp [getBotStatus, hg]
      · intro s hs hu
        have hs0 : s0 = s := by
          injection hs
        subst hs0
        constructor
        · simp [getBotStatus, hg]
        · simp [getBotStatus, hg, hu]

/-- Witness for status_reflects_registry at a concrete state: bot b1 has a
pending, not yet authenticated socket and is reported connected with user
absent. -/
theorem status_reflects_registry_wit :
    (getBotStatus sampleState "b1" 0).status = "connected" ∧
    (getBotStatus sampleState "b1" 0).user = none :=
  (status_reflects_registry sampleState "b1" 0).2.2.2
    { sid := 1, user := none } (by decide) rfl

/-- Counterexample to claim C1 at a concrete state: bot b1 holds a live
Pairing Entry with code 12345678; verification with the correct code succeeds
and triggers the native pairing request, but the Pairing Entry is NOT removed
(the state is returned unchanged), and a second verification with the same
code succeeds again instead of returning the NotFoundOrExpired result the
claim requires. -/
theorem verify_consumes_entry_cx :
    (verifyPairingCode sampleState "b1" "12345678" none).1.success = true ∧
    (verifyPairingCode sampleState "b1" "12345678" none).2 = sampleState ∧
    mapGet (verifyPairingCode sampleState "b1" "12345678" none).2.pairingCodes "b1" =
      some sampleEntry ∧
    (verifyPairingCode
        (verifyPairingCode sampleState "b1" "12345678" none).2
        "b1" "12345678" none).1 =
      { success := true, message := "Pairing successful" } := by
  decide

/-- Claim C1 as amended: verification with the correct code of a live Pairing
Entry triggers the native pairing request (succeeding exactly when that
external call succeeds) and leaves the whole state, including the entry,
unchanged — so repeated verifications with the same correct code keep
succeeding while the entry is live; only when no entry exists (never created,
expired, or cleared by a connection open or logout) does verification return
NotFoundOrExpired, which the verify route maps to HTTP 400 with the message
Pairing code expired or invalid. -/
theorem verify_success_leaves_entry (st : ServiceState) (b code : String)
    (err : Option String) :
    (∀ e : PairingData, mapGet st.pairingCodes b = some e → e.code = code →
        (verifyPairingCode st b code err).2 = st ∧
        mapGet (verifyPairingCode st b code err).2.pairingCodes b = some e ∧
        ((verifyPairingCode st b code err).1.success = true ↔ err = none)) ∧
    (mapGet st.pairingCodes b = none →
        (verifyPairingCode st b code err).1 =
          { success := false, message := "Pairing code expired or invalid" } ∧
        (b ≠ "" → isEightDigitCode code = true →
          verifyRoute st (some b) (some code) err =
            { status := 400, success := false,
              message := "Pairing code expired or invalid" })) := by
  constructor
  · intro e hg hc
    refine ⟨verifyPairingCode_state st b code err, ?_, ?_⟩
    · rw [verifyPairingCode_state]
      exact hg
    · cases err with
      | none => simp [verifyPairingCode, hg, hc]
      | some e2 => simp [verifyPairingCode, hg, hc]
  · intro hg
    refine ⟨by simp [verifyPairingCode, hg], ?_⟩
    intro hb h8
    have hcne : code ≠ "" := by
      intro hcc
      subst hcc
      simp [isEightDigitCode] at h8
    have ht : (jsTruthy (some b) && jsTruthy (some code)) = true := by
      simp [jsTruthy, hb, hcne]
    simp [verifyRoute, ht, h8, verifyPairingCode, hg]

/-- Witness for verify_success_leaves_entry: at the concrete state the first
component applies with the matching code (entry kept, success exactly on a
successful native request), and at the empty state the second component gives
the NotFoundOrExpired result and the 400 route response. -/
theorem verify_success_leaves_entry_wit :
    ((verifyPairingCode sampleState "b1" "12345678" none).2 = sampleState ∧
     mapGet (verifyPairingCode sampleState "b1" "12345678" none).2.pairingCodes "b1" =
       some sampleEntry ∧
     ((verifyPairingCode sampleState "b1" "12345678" none).1.success = true ↔
       (none : Option String) = none)) ∧
    (verifyPairingCode initialState "b1" "12345678" none).1 =
      { success := false, message := "Pairing code expired or invalid" } ∧
    ("b1" ≠ "" → isEightDigitCode "12345678" = true →
      verifyRoute initialState (some "b1") (some "12345678") none =
        { status := 400, success := false,
          message := "Pairing code expired or invalid" }) :=
  ⟨(verify_success_leaves_entry sampleState "b1" "12345678" none).1 sampleEntry
      (by decide) rfl,
   (verify_success_leaves_entry initialState "b1" "12345678" none).2 rfl⟩

/-- Counterexample to claim C2 at a concrete state: after the handler for a
connection closure with status code 401 (logged out) runs for bot b1, the
Pairing Entry and Registry entry are gone and the status reads disconnected,
but the credential bundle directory still exists, contradicting the claim
that it no longer does. -/
theorem logout_keeps_bundle_cx :
    mapGet (handleConnectionClose sampleState "b1" (some 401)).1.pairingCodes "b1" = none ∧
    mapGet (handleConnectionClose sampleState "b1" (some 401)).1.activeSockets "b1" = none ∧
    (getBotStatus (handleConnectionClose sampleState "b1" (some 401)).1 "b1" 0).status =
      "disconnected" ∧
    sessionPath "b1" ∈ (handleConnectionClose sampleState "b1" (some 401)).1.sessionDirs := by
  decide

/-- Claim C2 as amended: on a connection closure reported with status code 401
(logged out), the orchestrator deletes the Pairing Entry (if any) and the
Registry entry for the bot id and schedules no reconnect, and the status
afterwards reads disconnected — but the credential bundle directory is left
untouched on disk (the per-bot close handler of the bot service never deletes
it; only the separate single-session manager clears its session directory on
logout). -/
theorem logout_close_teardown (st : ServiceState) (b : String) (now : Nat) :
    mapGet (handleConnectionClose st b (some 401)).1.pairingCodes b = none ∧
    mapGet (handleConnectionClose st b (some 401)).1.activeSockets b = none ∧
    (handleConnectionClose st b (some 401)).2 = false ∧
    (handleConnectionClose st b (some 401)).1.sessionDirs = st.sessionDirs ∧
    (getBotStatus (handleConnectionClose st b (some 401)).1 b now).status =
      "disconnected" := by
  have hres : handleConnectionClose st b (some 401) =
      ({ st with
          pairingCodes := mapDelete st.pairingCodes b
          activeSockets := mapDelete st.activeSockets b }, false) := by
    rw [handleConnectionClose]
    simp
  rw [hres]
  refine ⟨mapGet_delete_self _ _, mapGet_delete_self _ _, rfl, rfl, ?_⟩
  simp [getBotStatus, mapGet_delete_self]

/-- Counterexample to claim C4 at a concrete input: a generate request with a
valid bot id and an eleven-digit phone number, whose session creation does
not throw but finds the credentials already registered, is answered 200 with
success true and a data object whose pairingCode is null — not an
eight-character numeric code. -/
theorem generate_registered_null_code_cx :
    (generateRoute initialState (some "b1") (some "+1 (555) 123-4567")
        true 1 0 0 false).1.status = 200 ∧
    (generateRoute initialState (some "b1") (some "+1 (555) 123-4567")
        true 1 0 0 false).1.success = true ∧
    Option.map GenerateData.pairingCode
      (generateRoute initialState (some "b1") (some "+1 (555) 123-4567")
        true 1 0 0 false).1.data = some none := by
  decide

/-- Claim C4 as amended: for a generate request with nonempty bot id, a phone
number normalizing to at least ten digits, a session creation that does not
throw AND credentials that are not yet registered, the response is 200 with
success true and a data object carrying an eight-character all-digit
pairingCode that is the decimal rendering of a number in
[10000000, 99999999], together with expiresIn 10 minutes; when the
credentials are already registered the response is still a success but its
pairingCode is null. -/
theorem generate_fresh_returns_code (st : ServiceState) (b p : String)
    (sockId rand now : Nat) (hb : b ≠ "") (hp : p ≠ "")
    (hlen : 10 ≤ (normalizePhone p).length) :
    ∃ s : String,
      (generateRoute st (some b) (some p) false sockId rand now false).1 =
        { status := 200, success := true, message := none,
          data := some
            { botId := b
              pairingCode := some s
              instructions := "Use this 8-digit code in WhatsApp > Linked Devices > Link a Device"
              expiresIn := "10 minutes" } } ∧
      s.length = 8 ∧ s.data.all Char.isDigit = true ∧
      ∃ n : Nat, 10000000 ≤ n ∧ n ≤ 99999999 ∧ s = jsNatToString n := by
  refine ⟨generatePairingCode rand, ?_, generatePairingCode_length rand,
    generatePairingCode_digits rand, generatePairingCode_range rand⟩
  have ht : (jsTruthy (some b) && jsTruthy (some p)) = true := by
    simp [jsTruthy, hb, hp]
  have hnl : ¬ (normalizePhone p).length < 10 := by omega
  simp [generateRoute, ht, hnl, createBotSessionWithPairing]

/-- Witness for generate_fresh_returns_code at a concrete request. -/
theorem generate_fresh_returns_code_wit :
    ∃ s : String,
      (generateRoute initialState (some "b1") (some "+1 (555) 123-4567")
          false 1 2345678 0 false).1 =
        { status := 200, success := true, message := none,
          data := some
            { botId := "b1"
              pairingCode := some s
              instructions := "Use this 8-digit code in WhatsApp > Linked Devices > Link a Device"
              expiresIn := "10 minutes" } } ∧
      s.length = 8 ∧ s.data.all Char.isDigit = true ∧
      ∃ n : Nat, 10000000 ≤ n ∧ n ≤ 99999999 ∧ s = jsNatToString n :=
  generate_fresh_returns_code initialState "b1" "+1 (555) 123-4567" 1 2345678 0
    (by decide) (by decide) (by decide)

/-- Counterexample to claim C5 on a concrete trace: bot b1 creates a Pairing
Entry at time 0 (its expiry timer fires at 600000) and a superseding entry at
time 540000 (whose own expiry would be 1140000).  When the stale timer of the
first, superseded entry fires at 600000, the pairing state it was scheduled
for has already changed, yet the callback — which only checks presence, not
identity — deletes the newer entry, 60 seconds after its creation. -/
theorem stale_expiry_deletes_newer_cx :
    mapGet (runTrace [Ev.create "b1" "+15550100000" false 1 11111111 0,
                      Ev.create "b1" "+15550100000" false 2 22222222 540000]).pairingCodes
        "b1" =
      some { code := generatePairingCode 22222222, socket := 2,
             phoneNumber := "+15550100000", createdAt := 540000 } ∧
    mapGet (step (runTrace [Ev.create "b1" "+15550100000" false 1 11111111 0,
                            Ev.create "b1" "+15550100000" false 2 22222222 540000])
        (Ev.expiry "b1" 600000)).pairingCodes "b1" = none ∧
    600000 < 540000 + 600000 := by
  decide

/-- Claim C5 as amended: the expiry callback performs only a presence check,
not an identity check: it is a no-op exactly when no Pairing Entry at all
exists for the bot id, and whenever any entry is present — including a newer
entry that superseded the one the timer was scheduled for — the callback
deletes it. -/
theorem expiry_presence_check_only (st : ServiceState) (b : String) (t : Nat) :
    (mapGet st.pairingCodes b = none → step st (Ev.expiry b t) = st) ∧
    (∀ e : PairingData, mapGet st.pairingCodes b = some e →
      mapGet (step st (Ev.expiry b t)).pairingCodes b = none) := by
  constructor
  · intro h
    have hf : ¬ (mapHas st.pairingCodes b = true) := by
      rw [mapHas, h]
      simp
    rw [step, expiryCallback, if_neg hf]
  · intro e h
    rw [step]
    exact expiryCallback_clears st b

/-- Witness for expiry_presence_check_only: a firing timer is a no-op on the
empty state, and deletes the entry present at the concrete state. -/
theorem expiry_presence_check_only_wit :
    step initialState (Ev.expiry "b1" 0) = initialState ∧
    mapGet (step sampleState (Ev.expiry "b1" 600000)).pairingCodes "b1" = none :=
  ⟨(expiry_presence_check_only initialState "b1" 0).1 rfl,
   (expiry_presence_check_only sampleState "b1" 600000).2 sampleEntry (by decide)⟩

/-- Claim C6: in every reachable service state each bot id indexes at most one
Pairing Entry (the pairingCodes keys are unique), and creating a new entry
for a bot id supersedes any previous one: the lookup afterwards returns
exactly the new entry. -/
theorem pairing_entry_unique (st : ServiceState) (h : Reachable st) (b : String) :
    (st.pairingCodes.map Prod.fst).count b ≤ 1 ∧
    ∀ (phone : String) (sockId rand now : Nat),
      mapGet (createBotSessionWithPairing st b phone false sockId rand now).2.pairingCodes
          b =
        some { code := generatePairingCode rand, socket := sockId,
               phoneNumber := phone, createdAt := now } := by
  constructor
  · exact List.nodup_iff_count_le_one.mp (reachable_keys_nodup st h).1 b
  · intro phone sockId rand now
    rw [createBotSessionWithPairing_pairingCodes_false]
    exact mapGet_set_self st.pairingCodes b _

/-- Witness for pairing_entry_unique at a reachable state that already holds
an entry for b1: the key count stays at most one and a second creation for
b1 supersedes the first entry. -/
theorem pairing_entry_unique_wit :
    (((step initialState
        (Ev.create "b1" "+15551234567" false 1 5 0)).pairingCodes.map Prod.fst).count
      "b1") ≤ 1 ∧
    mapGet (createBotSessionWithPairing
        (step initialState (Ev.create "b1" "+15551234567" false 1 5 0))
        "b1" "+15557654321" false 2 6 60000).2.pairingCodes "b1" =
      some { code := generatePairingCode 6, socket := 2,
             phoneNumber := "+15557654321", createdAt := 60000 } := by
  have h := pairing_entry_unique
    (step initialState (Ev.create "b1" "+15551234567" false 1 5 0))
    (Reachable.next initialState _ Reachable.init) "b1"
  exact ⟨h.1, h.2 "+15557654321" 2 6 60000⟩

/-- Claim C8: consider a chronological trace in which a Pairing Entry for a
bot id was created at time T (with a fresh, unregistered auth state) and the
expiry timer that this creation scheduled fires at T + 600000 milliseconds
(ten minutes).  After the firing — that is, at every time at or beyond
T + 10 minutes — no Pairing Entry for that bot id remains, provided no new
entry is created for that bot id afterwards, and verification for the bot id
then returns NotFoundOrExpired (message Pairing code expired or invalid).
The conclusion holds with or without an earlier successful verification,
because verification never deletes the entry. -/
theorem pairing_entry_unreachable_after_expiry
    (pre suf : List Ev) (b phone code : String) (sockId rand T : Nat)
    (err : Option String)
    (_hchron : chronological (pre ++ Ev.expiry b (T + 600000) :: suf))
    (_hcreated : Ev.create b phone false sockId rand T ∈ pre)
    (hnonew : ∀ e ∈ suf, e.createsFor b = false) :
    mapGet (runTrace (pre ++ Ev.expiry b (T + 600000) :: suf)).pairingCodes b = none ∧
    (verifyPairingCode (runTrace (pre ++ Ev.expiry b (T + 600000) :: suf)) b code err).1 =
      { success := false, message := "Pairing code expired or invalid" } := by
  have hrun : runTrace (pre ++ Ev.expiry b (T + 600000) :: suf) =
      suf.foldl step (step (pre.foldl step initialState) (Ev.expiry b (T + 600000))) := by
    rw [runTrace, List.foldl_append, List.foldl_cons]
  have hmid : mapGet (step (pre.foldl step initialState)
      (Ev.expiry b (T + 600000))).pairingCodes b = none := by
    rw [step]
    exact expiryCallback_clears _ b
  have hfin : mapGet (runTrace (pre ++ Ev.expiry b (T + 600000) :: suf)).pairingCodes b =
      none := by
    rw [hrun]
    exact noEntry_foldl suf b _ hmid hnonew
  refine ⟨hfin, ?_⟩
  simp [verifyPairingCode, hfin]

/-- Witness for pairing_entry_unreachable_after_expiry on a concrete
three-event chronological trace: creation at time 0, expiry firing at
600000, and a verification attempt at 700000 that finds nothing. -/
theorem pairing_entry_unreachable_after_expiry_wit :
    mapGet (runTrace ([Ev.create "b1" "+15551234567" false 1 7 0] ++
        Ev.expiry "b1" (0 + 600000) ::
          [Ev.verify "b1" "12345678" none 700000])).pairingCodes "b1" = none ∧
    (verifyPairingCode (runTrace ([Ev.create "b1" "+15551234567" false 1 7 0] ++
        Ev.expiry "b1" (0 + 600000) ::
          [Ev.verify "b1" "12345678" none 700000])) "b1" "12345678" none).1 =
      { success := false, message := "Pairing code expired or invalid" } :=
  pairing_entry_unreachable_after_expiry
    [Ev.create "b1" "+15551234567" false 1 7 0]
    [Ev.verify "b1" "12345678" none 700000]
    "b1" "+15551234567" "12345678" 1 7 0 none
    (by constructor <;> simp [chronological, Ev.time])
    (by simp)
    (by simp [Ev.createsFor])
